import Mathlib

/-!
Verification development for the SlowCal repository (SF small-business
risk-analysis platform). The definitions below are shallow embeddings of the
TypeScript frontend sources (the API client in `lib/api`, the plan page
`app/business-portal/plan/page.tsx`, the dashboard, the Supabase-backed
discover/map pages, the `RiskIndicator` component and the `lib/types`
declarations). Components of the backend pipeline that are described in the
design documents but whose code is not part of the repository snapshot
(RiskScorer, IdentityResolver, the orchestrator) are modelled from the spec
where a claim needs them; each such definition is marked in its doc comment.
-/

namespace SlowCal

/-! ## JavaScript values

A small model of the JavaScript/JSON values the API client manipulates.
`JsonVal` covers values that `response.json()` can produce; `undefined` is
represented separately (as `Option.none`) where property access can yield it.
-/

inductive JsonVal where
  | null
  | bool (b : Bool)
  | num (q : ℚ)
  | str (s : String)
  | arr (elems : List JsonVal)
  | obj (fields : List (String × JsonVal))

/-- JavaScript truthiness of a JSON value (`NaN` cannot arise from JSON). -/
def truthy : JsonVal → Bool
  | .null => false
  | .bool b => b
  | .num q => if q = 0 then false else true
  | .str s => if s = "" then false else true
  | .arr _ => true
  | .obj _ => true

/-- JavaScript property read `v[key]`. Reading a property of `null` throws a
TypeError (`Except.error`); reading a missing property of an object, or any
property of a primitive, yields `undefined` (`Option.none`). -/
def jsGetProp : JsonVal → String → Except Unit (Option JsonVal)
  | .null, _ => .error ()
  | .obj fields, key => .ok (fields.lookup key)
  | _, _ => .ok none

/-- An HTTP response as the client observes it: the `ok` flag and the result
of attempting to parse the body text as JSON (`none` when parsing fails, in
which case `response.json()` rejects). -/
structure HttpResponse where
  ok : Bool
  bodyJson : Option JsonVal

/-- The ways `analyzeBusinessRisk` can fail: the ok-path body fails to parse
(the `response.json()` promise rejects), the `error.detail` access throws a
TypeError because the parsed error body is `null`, or the explicit
`throw new Error(error.detail || 'Analysis failed')`. -/
inductive FetchError where
  | parseFailure
  | nullDetailAccess
  | appError (message : JsonVal)

/-- Embedding of `analyzeBusinessRisk` from the API client (`lib/api`):
on `response.ok` it returns `response.json()`; otherwise it parses the body
with a fallback object `{detail: 'Analysis failed'}` on parse failure and
throws `new Error(error.detail || 'Analysis failed')`. -/
def analyzeBusinessRisk (response : HttpResponse) : Except FetchError JsonVal :=
  if response.ok then
    match response.bodyJson with
    | some v => .ok v
    | none => .error .parseFailure
  else
    let errVal := response.bodyJson.getD (.obj [("detail", .str "Analysis failed")])
    match jsGetProp errVal "detail" with
    | .error _ => .error .nullDetailAccess
    | .ok d =>
      let message := match d with
        | some v => if truthy v then v else .str "Analysis failed"
        | none => .str "Analysis failed"
      .error (.appError message)

/-! ## Response schema field lists

Field names transcribed from the TypeScript interfaces of the API client
(`lib/api`), in declaration order, and — for comparison — the field lists of
the `RiskAnalysisResponse` schema as the spec states it. -/

/-- Top-level fields of the `AnalysisResult` interface in `lib/api`. -/
def AnalysisResult.fields : List String :=
  ["case_id", "business_name", "address", "neighborhood", "match_confidence",
   "risk_score", "risk_level", "risk_drivers",
   "permit_count_6m", "complaint_count_6m", "incident_count_6m",
   "strategy_summary", "actions", "questions", "risk_if_no_action",
   "analyzed_at", "pipeline_duration_ms"]

/-- Fields of the `RiskDriver` interface in `lib/api`. -/
def RiskDriver.fields : List String := ["name", "trend", "contribution"]

/-- Fields of the `StrategicAction` interface in `lib/api`. -/
def StrategicAction.fields : List String :=
  ["horizon", "action", "why", "expected_outcome", "impact", "effort"]

/-- Modelled from the spec: the top-level fields the `RiskAnalysisResponse`
schema requires (section 6, "Response schema (produced)"). -/
def specResponseFields : List String :=
  ["case_id", "as_of", "horizon_months", "entity", "risk", "strategy",
   "limitations", "audit"]

/-- Modelled from the spec: the fields of one `risk.top_drivers` entry in the
`RiskAnalysisResponse` schema. -/
def specDriverFields : List String := ["driver", "direction", "evidence_refs"]

/-- Modelled from the spec: the fields of one `strategy.actions` entry in the
`RiskAnalysisResponse` schema. -/
def specActionFields : List String :=
  ["horizon", "action", "why", "expected_impact", "effort", "evidence_refs",
   "success_metric"]

/-- Modelled from the spec: the fields of the `audit` object in the
`RiskAnalysisResponse` schema. -/
def specAuditFields : List String :=
  ["data_pulled_at", "dataset_versions", "agent_versions", "qa_status"]

/-- The `impact` values enumerated by the `StrategicAction` interface. -/
def impactEnum : List String := ["HIGH", "MEDIUM", "LOW"]

/-- The `effort` values enumerated by the `StrategicAction` interface. -/
def effortEnum : List String := ["high", "medium", "low"]

/-! ## The response records

Runtime records of the API client's interfaces. The responses are produced by
`JSON.parse` / `response.json()`, which enforces no union types, so `trend`,
`risk_level`, `impact` and `effort` are carried as plain strings; the numeric
fields are rationals (JS numbers; no NaN/Infinity arises from JSON). -/

/-- One entry of `risk_drivers` (`RiskDriver` in `lib/api`). -/
structure RiskDriver where
  name : String
  trend : String
  contribution : ℚ
  deriving DecidableEq, Repr

/-- One entry of `actions` (`StrategicAction` in `lib/api`). -/
structure StrategicAction where
  horizon : String
  action : String
  why : String
  expected_outcome : String
  impact : String
  effort : String
  deriving DecidableEq, Repr

/-- The `AnalysisResult` interface of `lib/api` (the analysis response the
frontend stores in sessionStorage and renders). -/
structure AnalysisResult where
  case_id : String
  business_name : String
  address : String
  neighborhood : String
  match_confidence : ℚ
  risk_score : ℚ
  risk_level : String
  risk_drivers : List RiskDriver
  permit_count_6m : ℤ
  complaint_count_6m : ℤ
  incident_count_6m : ℤ
  strategy_summary : String
  actions : List StrategicAction
  questions : List String
  risk_if_no_action : String
  analyzed_at : String
  pipeline_duration_ms : ℚ
  deriving DecidableEq, Repr

/-- JavaScript `Math.round` on the nonnegative range used here:
`Math.round(x) = Math.floor(x + 0.5)`. -/
def jsRound (q : ℚ) : ℤ := ⌊q + 1 / 2⌋

/-- The dashboard page's `riskScore` for a stored result:
`Math.round(analysisResult.risk_score * 100)`. -/
def dashboardRiskScore (result : AnalysisResult) : ℤ :=
  jsRound (result.risk_score * 100)

/-! ## The survival-plan page (`app/business-portal/plan/page.tsx`) -/

/-- The `status` union of a `PlanSection`. -/
inductive SectionStatus where
  | critical
  | moderate
  | completed
  deriving DecidableEq, Repr

/-- The lucide icon attached to a `PlanSection`. -/
inductive SectionIcon where
  | alertTriangle
  | fileText
  | checkCircle
  deriving DecidableEq, Repr

/-- One step of a one-pager's action plan. -/
structure ActionStep where
  step : Nat
  text : String
  deriving DecidableEq, Repr

/-- The `onePager` part of a `PlanSection`. -/
structure OnePager where
  title : String
  problem : String
  context : String
  actionPlan : List ActionStep
  resources : List String
  deriving DecidableEq, Repr

/-- A section of the survival plan (`PlanSection` in the plan page). -/
structure PlanSection where
  id : String
  title : String
  status : SectionStatus
  icon : SectionIcon
  onePager : OnePager
  deriving DecidableEq, Repr

/-- Whether a character is a JavaScript word character (`\w`), as used by the
`\b\w` pattern of `formatHorizon`. -/
def isWordChar (c : Char) : Bool := c.isAlphanum || c = '_'

/-- Uppercase every word-initial character: the effect of
`.replace(/\b\w/g, char => char.toUpperCase())`. -/
def capWordStarts (s : String) : String :=
  let rec go : Option Char → List Char → List Char
    | _, [] => []
    | prev, c :: rest =>
      let startsWord :=
        isWordChar c && (match prev with
          | none => true
          | some p => !isWordChar p)
      (if startsWord then c.toUpper else c) :: go (some c) rest
  String.mk (go none s.data)

/-- Embedding of `formatHorizon`: the fallback "Action Item" for a falsy
horizon, else underscores become spaces and each word is capitalized. -/
def formatHorizon (horizon : String) : String :=
  if horizon = "" then "Action Item"
  else capWordStarts (horizon.replace "_" " ")

/-- Append an action under its horizon key, keeping the key order of first
insertion (JavaScript object keys enumerate in insertion order for the
non-integer-like horizon strings used here). -/
def insertGroup (h : String) (a : StrategicAction) :
    List (String × List StrategicAction) → List (String × List StrategicAction)
  | [] => [(h, [a])]
  | (k, xs) :: rest =>
    if k = h then (k, xs ++ [a]) :: rest else (k, xs) :: insertGroup h a rest

/-- The `actions.reduce` grouping of `convertActionsToSections`: actions
grouped by `action.horizon || 'Other'`. -/
def groupByHorizon (actions : List StrategicAction) :
    List (String × List StrategicAction) :=
  actions.foldl
    (fun acc action =>
      insertGroup (if action.horizon = "" then "Other" else action.horizon)
        action acc)
    []

/-- The section built for one horizon group (the body of the
`Object.entries(...).map` in `convertActionsToSections`). -/
def mkSection (idx : Nat) (horizon : String)
    (horizonActions : List StrategicAction) : PlanSection :=
  let hasHigh := horizonActions.any (fun a => a.impact = "HIGH")
  let hasMedium := horizonActions.any (fun a => a.impact = "MEDIUM")
  let actionSteps := horizonActions.enum.map
    (fun p => ActionStep.mk (p.1 + 1) p.2.action)
  let problems := String.intercalate " "
    (((horizonActions.filter (fun a => a.why ≠ "")).map (fun a => a.why)))
  let outcomes := String.intercalate "\n"
    (((horizonActions.filter (fun a => a.expected_outcome ≠ "")).map
      (fun a => "â€¢ " ++ a.expected_outcome)))
  { id := "horizon-" ++ toString idx
    title := formatHorizon horizon
    status :=
      if hasHigh then .critical else if hasMedium then .moderate else .completed
    icon :=
      if hasHigh then .alertTriangle
      else if hasMedium then .fileText
      else .checkCircle
    onePager :=
      { title := formatHorizon horizon ++ " Action Plan"
        problem :=
          if problems = "" then
            "These areas require attention based on our risk analysis."
          else problems
        context :=
          toString horizonActions.length ++ " action" ++
            (if horizonActions.length > 1 then "s" else "") ++
            " identified for this timeframe.\n\nExpected Outcomes:\n" ++
            (if outcomes = "" then
              "Improved business resilience and reduced risk."
            else outcomes)
        actionPlan := actionSteps.take 8
        resources := [] } }

/-- The hard-coded `DEFAULT_SECTIONS` of the plan page: the demo survival
plan shown when no real actions are available. -/
def DEFAULT_SECTIONS : List PlanSection :=
  [{ id := "lease"
     title := "Commercial Lease"
     status := .critical
     icon := .alertTriangle
     onePager :=
       { title := "Lease Renegotiation Strategy"
         problem := "Rent to Income ratio has exceeded 25%, putting the business in the critical risk zone."
         context := "Commercial rents in Hayes Valley have dropped by 12% on average for new leases, but your current agreement is locked at 2019 rates. This disparity is costing you approximately $4,500/month."
         actionPlan :=
           [⟨1, "Request a rent relief or deferral meeting with your landlord."⟩,
            ⟨2, "Present the 'Market Rate Comparison' report (attached below)."⟩,
            ⟨3, "Propose a percentage-rent model for the next 12 months."⟩]
         resources := ["Market Rate Report.pdf", "Rent Relief Letter Template.docx"] } },
   { id := "outreach"
     title := "Community Outreach"
     status := .moderate
     icon := .fileText
     onePager :=
       { title := "Community Re-Engagement"
         problem := "Foot traffic has decreased by 15% despite stable local population."
         context := "Analysis shows a disconnect with newer residents in the area. Your 'regulars' base is aging, and new tech workers in the area aren't aware of your history."
         actionPlan :=
           [⟨1, "Launch 'Meet the Owner' weekly events."⟩,
            ⟨2, "Partner with 3 nearby tech offices for morning coffee runs."⟩,
            ⟨3, "Update window signage to tell your 20-year story."⟩]
         resources := ["Event Flyer Template.pdf", "Social Media Kit.zip"] } },
   { id := "digital"
     title := "Digital Presence"
     status := .completed
     icon := .checkCircle
     onePager :=
       { title := "Digital Modernization"
         problem := "Online discoverability was low for 'coffee near me' searches."
         context := "You have successfully claimed your Google Business Profile and updated your Yelp hours. Reviews have increased by 20% in the last month."
         actionPlan :=
           [⟨1, "Continue responding to all reviews within 24 hours."⟩,
            ⟨2, "Post weekly photos of specials."⟩]
         resources := [] } }]

/-- Embedding of `convertActionsToSections`: `DEFAULT_SECTIONS` for a missing
or empty action list, else one section per horizon group. -/
def convertActionsToSections (actions : List StrategicAction) :
    List PlanSection :=
  if actions = [] then DEFAULT_SECTIONS
  else (groupByHorizon actions).enum.map (fun p => mkSection p.1 p.2.1 p.2.2)

/-- The sections the plan page ends up rendering for a stored result: the
state starts as `DEFAULT_SECTIONS` and is replaced by
`convertActionsToSections result.actions` only when `result.actions` is
non-empty. -/
def sectionsForResult (result : AnalysisResult) : List PlanSection :=
  if result.actions.length > 0 then convertActionsToSections result.actions
  else DEFAULT_SECTIONS

/-! ## The directory types and the Supabase-backed pages

`lib/types` declares `RiskLevel = 'low' | 'medium' | 'high' | 'critical'` and
the `Business` record; the discover list page, the map page and the business
profile page query the `master_model_data` table and map its rows to
`Business` values. -/

/-- The `RiskLevel` union of `lib/types`. -/
inductive RiskLevel where
  | low
  | medium
  | high
  | critical
  deriving DecidableEq, Repr

/-- The string members of the `RiskLevel` union, as written in `lib/types`. -/
def riskLevelValues : List String := ["low", "medium", "high", "critical"]

/-- The `Business` record of `lib/types` (category kept as a string; the
mapped rows always use the `'other'` member of the `Category` union). -/
structure Business where
  id : String
  name : String
  category : String
  neighborhood : String
  address : String
  lat : ℚ
  lng : ℚ
  photoUrl : String
  riskScore : ℤ
  riskLevel : RiskLevel
  tagline : String
  story : String
  businessAge : Option ℚ
  deriving DecidableEq, Repr

/-- A row of the `master_model_data` Supabase table, with `none` for a
null/missing column. Only the columns the page mappings read are listed. -/
structure MasterModelRow where
  id : Option String
  dba_name : Option String
  ownership_name : Option String
  neighborhood : Option String
  full_business_address : Option String
  latitude : Option String
  longitude : Option String
  risk_score : Option ℚ
  risk_level : Option String
  naic_code_description : Option String
  business_age : Option ℚ
  deriving DecidableEq, Repr

/-- JavaScript `a || fallback` over a nullable string: the fallback replaces
null/undefined and the empty string (both falsy). -/
def jsOrStr (v : Option String) (fallback : String) : String :=
  match v with
  | some s => if s = "" then fallback else s
  | none => fallback

/-- JavaScript `a || fallback` over a nullable number (zero is falsy). -/
def jsOrNum (v : Option ℚ) (fallback : ℚ) : ℚ :=
  match v with
  | some q => if q = 0 then fallback else q
  | none => fallback

/-- JavaScript `toLowerCase()` (ASCII lowering suffices for the
`risk_level` column values compared here). -/
def jsToLower (s : String) : String := String.mk (s.data.map Char.toLower)

/-- The placeholder photo used by the row mappings. -/
def placeholderPhotoUrl : String :=
  "https://images.unsplash.com/photo-1519167758481-83f550bb49b3?auto=format&fit=crop&q=80&w=800"

/-- The row-to-`Business` mapping shared by the discover list page, the map
page and the business profile page. The pages differ only in how `lat`/`lng`
are produced (fixed constants, `parseFloat` on the row, or seeded synthetic
coordinates), so the coordinate computation is a parameter; every other field
follows the common mapping, in particular
`riskLevel: item.risk_level?.toLowerCase?.() === 'high' ? 'high' : 'critical'`. -/
def mapRowToBusiness (coords : MasterModelRow → ℚ × ℚ)
    (item : MasterModelRow) : Business :=
  { id := item.id.getD ""
    name := jsOrStr item.dba_name (jsOrStr item.ownership_name "Unknown Business")
    category := "other"
    neighborhood := jsOrStr item.neighborhood "Unknown Neighborhood"
    address := jsOrStr item.full_business_address ""
    lat := (coords item).1
    lng := (coords item).2
    photoUrl := placeholderPhotoUrl
    riskScore := jsRound (jsOrNum item.risk_score 0 * 100)
    riskLevel :=
      match item.risk_level with
      | some s => if jsToLower s = "high" then RiskLevel.high else RiskLevel.critical
      | none => RiskLevel.critical
    tagline := jsOrStr item.naic_code_description "Local Business"
    story := ""
    businessAge := item.business_age }

/-- The fixed coordinates the discover list page assigns to every business. -/
def discoverCoords : MasterModelRow → ℚ × ℚ :=
  fun _ => (377749 / 10000, -1224194 / 10000)

/-- The discover list page's `fetchBusinesses`: the query keeps only rows
with `risk_level = 'High'`, pages them 50 at a time (`range(from, to)` after
`order('id')`; the order does not affect which rows appear), and maps each
row to a `Business`. -/
def fetchBusinessesList (page : Nat) (table : List MasterModelRow) :
    List Business :=
  ((((table.filter (fun item => item.risk_level = some "High")).drop
      ((page - 1) * 50)).take 50).map (mapRowToBusiness discoverCoords))

/-- The map page's `fetchBusinesses`: all rows with `risk_level = 'High'`,
mapped with its coordinate computation. -/
def fetchBusinessesMap (coords : MasterModelRow → ℚ × ℚ)
    (table : List MasterModelRow) : List Business :=
  (table.filter (fun item => item.risk_level = some "High")).map
    (mapRowToBusiness coords)

/-! ## The `RiskIndicator` component (`components/ui/RiskIndicator.tsx`) -/

/-- One entry of the component's `config` object literal. -/
structure RiskConfigEntry where
  dots : Nat
  color : String
  text : String
  label : String
  deriving DecidableEq, Repr

/-- The `config` object of `RiskIndicator`, keyed exactly by the four levels
of its props type; `config[level]` on any other string is `undefined`. -/
def RiskIndicator.config : List (String × RiskConfigEntry) :=
  [("low", ⟨1, "bg-risk-low", "text-risk-low", "Moderate Risk"⟩),
   ("moderate", ⟨2, "bg-risk-medium", "text-risk-medium", "Elevated Risk"⟩),
   ("high", ⟨3, "bg-risk-high", "text-risk-high", "High Risk"⟩),
   ("critical", ⟨4, "bg-risk-critical", "text-risk-critical", "Critical"⟩)]

/-- The component's `filledDots` chain of conditionals. -/
def RiskIndicator.filledDots (level : String) : Nat :=
  if level = "low" then 2
  else if level = "moderate" then 3
  else if level = "high" then 4
  else 5

/-- What the component computes before rendering. -/
structure RenderedIndicator where
  filledDots : Nat
  colorClass : String
  textClass : String
  deriving DecidableEq, Repr

/-- Evaluation of the `RiskIndicator` body: `config[level].color` throws a
TypeError when `level` is not a key of `config` (the lookup yields
`undefined`), so evaluation succeeds exactly when the lookup succeeds. -/
def RiskIndicator.render (level : String) : Option RenderedIndicator :=
  (RiskIndicator.config.lookup level).map fun entry =>
    ⟨RiskIndicator.filledDots level, entry.color, entry.text⟩

/-! ## The backend pipeline, modelled from the spec

The repository snapshot contains no code for the RiskScorer, the
IdentityResolver or the orchestrator (only design documents and the frontend
client of their HTTP API), so the definitions in this section are modelled
from the spec's contracts (sections 4.1, 4.4, 4.9 and 7). -/

/-- Modelled from the spec: a FeatureVector (section 4.3), a fixed list of
named feature values in feature declaration order. -/
structure FeatureVector where
  values : List (String × ℚ)
  deriving DecidableEq, Repr

/-- Modelled from the spec: the fixed coefficients of the versioned risk
model (the concrete trained model is an external collaborator; the spec only
fixes that the application of it is deterministic, so any fixed coefficient
table represents it). -/
def modelWeights : List (String × ℚ) :=
  [("complaint_count_6m", 4 / 100), ("incident_count_6m", 3 / 100),
   ("eviction_rate_6m", 2 / 100), ("vacancy_rate_6m", 2 / 100),
   ("permit_count_6m", -2 / 100), ("business_age_years", -1 / 100)]

/-- The coefficient of a named feature (zero for a feature the model does
not use). -/
def weightOf (name : String) : ℚ := (modelWeights.lookup name).getD 0

/-- Clamp to the closed unit interval, per the spec's "output score is
clamped to [0,1]". -/
def clamp01 (q : ℚ) : ℚ := max 0 (min 1 q)

/-- Modelled from the spec: the fixed band thresholds (section 4.4, "band
thresholds are fixed constants"). -/
def bandOf (score : ℚ) : String :=
  if score < 1 / 3 then "low" else if score < 2 / 3 then "medium" else "high"

/-- Modelled from the spec: one ranked driver of a RiskScore. -/
structure Driver where
  driverName : String
  direction : String
  magnitude : ℚ
  deriving DecidableEq, Repr

/-- Modelled from the spec: the RiskScore record (section 3). -/
structure RiskScore where
  score : ℚ
  band : String
  modelVersion : String
  drivers : List Driver
  deriving DecidableEq, Repr

/-- Stable insertion of a named contribution into a list sorted by
decreasing magnitude: an element moves ahead only of strictly smaller
magnitudes, so ties keep feature declaration order. -/
def insertByMagnitude (x : String × ℚ) :
    List (String × ℚ) → List (String × ℚ)
  | [] => [x]
  | y :: ys => if |y.2| < |x.2| then x :: y :: ys else y :: insertByMagnitude x ys

/-- Contributions sorted by decreasing magnitude, ties broken by feature
declaration order (the spec's driver-ranking rule, section 4.4). -/
def sortByMagnitudeDesc (contribs : List (String × ℚ)) : List (String × ℚ) :=
  contribs.foldr insertByMagnitude []

/-- Modelled from the spec: `RiskScorer.score` (section 4.4). A pure
function of the feature vector and the model version: per-feature
contributions from the fixed coefficients, the summed score clamped to
[0,1], the band from fixed thresholds, and the drivers as the top three
contributions by magnitude with ties in declaration order. -/
def RiskScorer.score (features : FeatureVector) (modelVersion : String) :
    RiskScore :=
  let contribs := features.values.map (fun p => (p.1, weightOf p.1 * p.2))
  let s := clamp01 ((contribs.map (fun p => p.2)).sum)
  { score := s
    band := bandOf s
    modelVersion := modelVersion
    drivers :=
      ((sortByMagnitudeDesc contribs).take 3).map
        (fun p => ⟨p.1, if 0 ≤ p.2 then "up" else "down", |p.2|⟩) }

/-- Modelled from the spec: one candidate match considered by the
IdentityResolver, with its weighted similarity score. -/
structure Candidate where
  entityId : String
  score : ℚ
  deriving DecidableEq, Repr

/-- Modelled from the spec: the tie-break margin (default 0.05). -/
def tieBreakMargin : ℚ := 5 / 100

/-- Stable insertion into a list sorted by decreasing candidate score. -/
def insertByScore (x : Candidate) : List Candidate → List Candidate
  | [] => [x]
  | y :: ys => if y.score < x.score then x :: y :: ys else y :: insertByScore x ys

/-- Candidates sorted by decreasing score. -/
def sortByScoreDesc (candidates : List Candidate) : List Candidate :=
  candidates.foldr insertByScore []

/-- Modelled from the spec: the IdentityResolver's outcome (section 4.1). -/
inductive ResolveOutcome where
  | resolved (best : Candidate)
  | ambiguousEntity
  | noMatch
  deriving DecidableEq, Repr

/-- Modelled from the spec: `IdentityResolver.resolve` returns the best
candidate, or fails with `AmbiguousEntity` when the top two candidates score
within the tie-break margin of each other. -/
def IdentityResolver.resolve (candidates : List Candidate) : ResolveOutcome :=
  match sortByScoreDesc candidates with
  | [] => .noMatch
  | [best] => .resolved best
  | best :: second :: _ =>
    if best.score - second.score < tieBreakMargin then .ambiguousEntity
    else .resolved best

/-- Modelled from the spec: the pipeline stages after case creation
(section 4.9's state machine; `acquiring` covers the SourceAgent fan-out and
the FeatureBuilder, `scoring` the RiskScorer, `strategizing` the
StrategyAgent). -/
inductive Stage where
  | resolving
  | acquiring
  | scoring
  | packaging
  | strategizing
  | validating
  deriving DecidableEq, Repr

/-- Modelled from the spec: the terminal status of a Case. -/
inductive CaseStatus where
  | complete
  | needsConfirmation
  | failed
  deriving DecidableEq, Repr

/-- Modelled from the spec: what one pipeline run records — the terminal
status and the stages that were invoked, in order. -/
structure CaseRun where
  status : CaseStatus
  stagesInvoked : List Stage
  deriving DecidableEq, Repr

/-- Modelled from the spec: the orchestrator's stage sequencing (section
4.9). Resolution runs first; an `AmbiguousEntity` (or no-match) outcome
moves the Case to "needs confirmation" and halts without invoking any
downstream stage, otherwise the downstream stages run in order. -/
def CaseManager.run (candidates : List Candidate) (features : FeatureVector)
    (modelVersion : String) : CaseRun :=
  match IdentityResolver.resolve candidates with
  | .ambiguousEntity => ⟨.needsConfirmation, [.resolving]⟩
  | .noMatch => ⟨.needsConfirmation, [.resolving]⟩
  | .resolved _ =>
    let _risk := RiskScorer.score features modelVersion
    ⟨.complete,
     [.resolving, .acquiring, .scoring, .packaging, .strategizing, .validating]⟩

/-! ## Theorems -/

/-- C1 (counterexample): the analysis response of the repository does not
conform to the spec's `RiskAnalysisResponse` schema — the schema's top-level
fields `as_of`, `horizon_months`, the nested `entity` object, `limitations`
and `audit` are all absent from the `AnalysisResult` interface the responses
follow. -/
theorem analysisResult_schema_mismatch :
    ("as_of" ∈ specResponseFields ∧ "as_of" ∉ AnalysisResult.fields) ∧
    ("horizon_months" ∈ specResponseFields ∧
      "horizon_months" ∉ AnalysisResult.fields) ∧
    ("entity" ∈ specResponseFields ∧ "entity" ∉ AnalysisResult.fields) ∧
    ("limitations" ∈ specResponseFields ∧
      "limitations" ∉ AnalysisResult.fields) ∧
    ("audit" ∈ specResponseFields ∧ "audit" ∉ AnalysisResult.fields) := by
  decide

/-- C1 (amended): the final analysis response conforms to the flat
`AnalysisResult` interface: entity, risk and strategy data appear as inline
top-level fields (`business_name`, `match_confidence`, `risk_score`,
`risk_level`, `risk_drivers`, `strategy_summary`, `actions`, `questions`),
and there is no nested `entity`/`risk`/`strategy` object and no `as_of`,
`horizon_months`, `limitations` or `audit` field. -/
theorem analysisResult_flat_schema :
    ("case_id" ∈ AnalysisResult.fields ∧
     "business_name" ∈ AnalysisResult.fields ∧
     "match_confidence" ∈ AnalysisResult.fields ∧
     "risk_score" ∈ AnalysisResult.fields ∧
     "risk_level" ∈ AnalysisResult.fields ∧
     "risk_drivers" ∈ AnalysisResult.fields ∧
     "strategy_summary" ∈ AnalysisResult.fields ∧
     "actions" ∈ AnalysisResult.fields ∧
     "questions" ∈ AnalysisResult.fields) ∧
    ("entity" ∉ AnalysisResult.fields ∧
     "risk" ∉ AnalysisResult.fields ∧
     "strategy" ∉ AnalysisResult.fields ∧
     "as_of" ∉ AnalysisResult.fields ∧
     "horizon_months" ∉ AnalysisResult.fields ∧
     "limitations" ∉ AnalysisResult.fields ∧
     "audit" ∉ AnalysisResult.fields) := by
  decide

/-- C2 (counterexample): the spec's driver and action schemas both require
an `evidence_refs` field, but the repository's `RiskDriver` and
`StrategicAction` response entries carry no such field, so drivers and
actions of the final response do not carry evidence-reference lists at
all. -/
theorem evidenceRefs_missing_from_response :
    ("evidence_refs" ∈ specDriverFields ∧
     "evidence_refs" ∈ specActionFields) ∧
    ("evidence_refs" ∉ RiskDriver.fields ∧
     "evidence_refs" ∉ StrategicAction.fields) := by
  decide

/-- C2 (amended): risk drivers carry exactly `name`, `trend` and
`contribution`, strategy actions carry exactly `horizon`, `action`, `why`,
`expected_outcome`, `impact` and `effort`, and no part of the response
schema carries an `evidence_refs` field — so the response contains no
evidence references, and in particular no dangling ones, only vacuously. -/
theorem response_has_no_evidence_refs :
    RiskDriver.fields = ["name", "trend", "contribution"] ∧
    StrategicAction.fields =
      ["horizon", "action", "why", "expected_outcome", "impact", "effort"] ∧
    "evidence_refs" ∉ RiskDriver.fields ∧
    "evidence_refs" ∉ StrategicAction.fields ∧
    "evidence_refs" ∉ AnalysisResult.fields := by
  decide

/-- C10: the `RiskIndicator` body evaluates for each of the four levels of
its props type, but for the level `"medium"` — a member of the `RiskLevel`
union that types `Business.riskLevel` — the `config[level].color` access
dereferences `undefined` and throws, so the error branch is reachable from
the declared public types. -/
theorem riskIndicator_medium_level_throws :
    (RiskIndicator.render "low").isSome = true ∧
    (RiskIndicator.render "moderate").isSome = true ∧
    (RiskIndicator.render "high").isSome = true ∧
    (RiskIndicator.render "critical").isSome = true ∧
    RiskIndicator.render "medium" = none ∧
    "medium" ∈ riskLevelValues := by
  decide

/-- C3 (counterexample): on an empty action list the plan page does not show
a "strategy unavailable" marker — `convertActionsToSections []` returns the
hard-coded `DEFAULT_SECTIONS`, a fabricated three-section demo plan about a
lease renegotiation, community outreach and digital presence. -/
theorem emptyActions_show_fabricated_plan :
    convertActionsToSections [] = DEFAULT_SECTIONS ∧
    DEFAULT_SECTIONS.length = 3 ∧
    DEFAULT_SECTIONS.map (fun s => s.title) =
      ["Commercial Lease", "Community Outreach", "Digital Presence"] ∧
    DEFAULT_SECTIONS.map (fun s => s.onePager.title) =
      ["Lease Renegotiation Strategy", "Community Re-Engagement",
       "Digital Modernization"] := by
  exact ⟨rfl, rfl, rfl, rfl⟩

/-- C3 (amended): when the stored response carries an empty actions list,
the dashboard still shows the deterministic risk score (the displayed score
depends only on `risk_score`, not on the actions), but the plan page renders
the hard-coded `DEFAULT_SECTIONS` demo plan in place of a "strategy
unavailable" marker. -/
theorem emptyActions_default_plan_and_score (result : AnalysisResult)
    (h : result.actions = []) :
    sectionsForResult result = DEFAULT_SECTIONS ∧
    ∀ acts : List StrategicAction,
      dashboardRiskScore { result with actions := acts } =
        dashboardRiskScore result := by
  constructor
  · simp [sectionsForResult, h]
  · intro acts
    rfl

/-- A stored analysis result whose strategy stage produced no actions. -/
def emptyActionsResult : AnalysisResult :=
  { case_id := "case-0001"
    business_name := "The Daily Grind"
    address := "500 Hayes St, San Francisco, CA"
    neighborhood := "Hayes Valley"
    match_confidence := 9 / 10
    risk_score := 78 / 100
    risk_level := "HIGH"
    risk_drivers := []
    permit_count_6m := 0
    complaint_count_6m := 2
    incident_count_6m := 1
    strategy_summary := ""
    actions := []
    questions := []
    risk_if_no_action := ""
    analyzed_at := "2026-01-25T00:00:00Z"
    pipeline_duration_ms := 1200 }

/-- Witness for the amended C3 theorem at a concrete stored result. -/
theorem emptyActions_default_plan_and_score_witness :
    sectionsForResult emptyActionsResult = DEFAULT_SECTIONS ∧
    dashboardRiskScore { emptyActionsResult with actions := [] } =
      dashboardRiskScore emptyActionsResult :=
  ⟨(emptyActions_default_plan_and_score emptyActionsResult rfl).1,
   (emptyActions_default_plan_and_score emptyActionsResult rfl).2 []⟩

/-- An action whose `impact` and `effort` lie outside the enumerated value
sets of the `StrategicAction` interface (possible at runtime, since the
response is produced by `JSON.parse` with no validation). -/
def outOfEnumAction : StrategicAction :=
  { horizon := "near_term"
    action := "Ignore every permit requirement"
    why := ""
    expected_outcome := ""
    impact := "EXTREME"
    effort := "impossible" }

/-- C4 (counterexample): an action whose `impact`/`effort` are outside the
enumerated sets is not stripped anywhere — its text is passed through into
the rendered plan sections. -/
theorem outOfEnum_action_passed_through :
    outOfEnumAction.impact ∉ impactEnum ∧
    outOfEnumAction.effort ∉ effortEnum ∧
    (convertActionsToSections [outOfEnumAction]).map
      (fun s => s.onePager.actionPlan.map (fun st => st.text)) =
      [["Ignore every permit requirement"]] := by
  exact ⟨by decide, by decide, rfl⟩

/-- C4 (amended): no repository component filters actions by their
`impact`/`effort` values — every action, whatever those fields hold, has its
text included in the rendered plan, and an action whose `impact` is outside
the enumerated set is merely classified into the `completed` status group
rather than stripped. -/
theorem actions_never_stripped (a : StrategicAction)
    (h1 : a.impact ≠ "HIGH") (h2 : a.impact ≠ "MEDIUM") :
    (convertActionsToSections [a]).map
      (fun s => s.onePager.actionPlan.map (fun st => st.text)) = [[a.action]] ∧
    (convertActionsToSections [a]).map (fun s => s.status) =
      [SectionStatus.completed] := by
  refine ⟨rfl, ?_⟩
  simp [convertActionsToSections, groupByHorizon, insertGroup, mkSection, h1, h2]

/-- Witness for the amended C4 theorem at the out-of-enumeration action. -/
theorem actions_never_stripped_witness :
    (convertActionsToSections [outOfEnumAction]).map
      (fun s => s.onePager.actionPlan.map (fun st => st.text)) =
      [[outOfEnumAction.action]] ∧
    (convertActionsToSections [outOfEnumAction]).map (fun s => s.status) =
      [SectionStatus.completed] :=
  actions_never_stripped outOfEnumAction (by decide) (by decide)

/-- A concrete feature vector (the spec's end-to-end scenario A: fifteen
311 complaints in the six-month window, no permits, no incidents). -/
def sampleFeatures : FeatureVector :=
  ⟨[("complaint_count_6m", 15), ("permit_count_6m", 0),
    ("incident_count_6m", 0)]⟩

/-- C5: `RiskScorer.score` is deterministic — for identical feature vectors
and identical model version, the score, the band and the driver list (hence
the driver ordering) coincide. The modelled scorer is a pure function of
exactly these two inputs: no call context, clock or randomness enters it. -/
theorem riskScorer_score_deterministic (f1 f2 : FeatureVector)
    (v1 v2 : String) (hf : f1 = f2) (hv : v1 = v2) :
    (RiskScorer.score f1 v1).score = (RiskScorer.score f2 v2).score ∧
    (RiskScorer.score f1 v1).band = (RiskScorer.score f2 v2).band ∧
    (RiskScorer.score f1 v1).drivers = (RiskScorer.score f2 v2).drivers := by
  subst hf
  subst hv
  exact ⟨rfl, rfl, rfl⟩

/-- Witness for the determinism theorem at a concrete feature vector. -/
theorem riskScorer_score_deterministic_witness :
    (RiskScorer.score sampleFeatures "v1.0.0").score =
      (RiskScorer.score sampleFeatures "v1.0.0").score ∧
    (RiskScorer.score sampleFeatures "v1.0.0").band =
      (RiskScorer.score sampleFeatures "v1.0.0").band ∧
    (RiskScorer.score sampleFeatures "v1.0.0").drivers =
      (RiskScorer.score sampleFeatures "v1.0.0").drivers :=
  riskScorer_score_deterministic sampleFeatures sampleFeatures
    "v1.0.0" "v1.0.0" rfl rfl

/-- C6: when the two best candidates score within the tie-break margin, the
IdentityResolver fails with `AmbiguousEntity`, the Case ends in the
needs-confirmation state, and only the resolving stage was invoked — no
downstream stage runs. -/
theorem identityResolver_tie_halts_pipeline (cands : List Candidate)
    (best second : Candidate) (rest : List Candidate)
    (hsort : sortByScoreDesc cands = best :: second :: rest)
    (hmargin : best.score - second.score < tieBreakMargin) :
    IdentityResolver.resolve cands = ResolveOutcome.ambiguousEntity ∧
    ∀ (features : FeatureVector) (modelVersion : String),
      (CaseManager.run cands features modelVersion).status =
        CaseStatus.needsConfirmation ∧
      (CaseManager.run cands features modelVersion).stagesInvoked =
        [Stage.resolving] := by
  have hres : IdentityResolver.resolve cands = ResolveOutcome.ambiguousEntity := by
    unfold IdentityResolver.resolve
    rw [hsort]
    simp [hmargin]
  refine ⟨hres, fun features modelVersion => ?_⟩
  constructor
  · simp [CaseManager.run, hres]
  · simp [CaseManager.run, hres]

/-- The spec's tie-break test vector: candidates scoring 0.81 and 0.80. -/
def tieCandidates : List Candidate :=
  [⟨"registry:rec-A", 81 / 100⟩, ⟨"registry:rec-B", 80 / 100⟩]

/-- Witness for the tie-break theorem at the 0.81 / 0.80 candidate pair. -/
theorem identityResolver_tie_halts_pipeline_witness :
    IdentityResolver.resolve tieCandidates = ResolveOutcome.ambiguousEntity ∧
    (CaseManager.run tieCandidates sampleFeatures "v1.0.0").status =
      CaseStatus.needsConfirmation ∧
    (CaseManager.run tieCandidates sampleFeatures "v1.0.0").stagesInvoked =
      [Stage.resolving] := by
  have h := identityResolver_tie_halts_pipeline tieCandidates
    ⟨"registry:rec-A", 81 / 100⟩ ⟨"registry:rec-B", 80 / 100⟩ []
    (by norm_num [tieCandidates, sortByScoreDesc, insertByScore])
    (by norm_num [tieBreakMargin])
  exact ⟨h.1, (h.2 sampleFeatures "v1.0.0").1, (h.2 sampleFeatures "v1.0.0").2⟩

/-- C7: the produced risk score is clamped to the closed interval [0,1], so
the percentage the consumers derive from it with `Math.round(score * 100)`
(the dashboard's `riskScore`) always lies between 0 and 100. -/
theorem riskScore_unit_interval_and_percent (features : FeatureVector)
    (modelVersion : String) :
    (0 ≤ (RiskScorer.score features modelVersion).score ∧
     (RiskScorer.score features modelVersion).score ≤ 1) ∧
    ∀ result : AnalysisResult,
      result.risk_score = (RiskScorer.score features modelVersion).score →
      0 ≤ dashboardRiskScore result ∧ dashboardRiskScore result ≤ 100 := by
  have hsc : (RiskScorer.score features modelVersion).score =
      clamp01 (((features.values.map
        (fun p => (p.1, weightOf p.1 * p.2))).map (fun p => p.2)).sum) := rfl
  have hb : 0 ≤ (RiskScorer.score features modelVersion).score ∧
      (RiskScorer.score features modelVersion).score ≤ 1 := by
    rw [hsc]
    exact ⟨le_max_left 0 _, max_le (by norm_num) (min_le_left 1 _)⟩
  refine ⟨hb, fun result hres => ?_⟩
  rw [dashboardRiskScore, hres]
  constructor
  · exact Int.le_floor.mpr (by push_cast; linarith [hb.1])
  · have h2 : (RiskScorer.score features modelVersion).score * 100 + 1 / 2 ≤
        (201 : ℚ) / 2 := by linarith [hb.2]
    have h3 := Int.floor_le_floor h2
    have h4 : ⌊(201 : ℚ) / 2⌋ = 100 := by norm_num [Int.floor_eq_iff]
    rw [jsRound]
    omega

/-- A stored result whose risk score is the scorer's output on the sample
feature vector. -/
def percentResult : AnalysisResult :=
  { case_id := "case-0002"
    business_name := "Sample Business"
    address := "1 Market St, San Francisco, CA"
    neighborhood := "Financial District"
    match_confidence := 1
    risk_score := (RiskScorer.score sampleFeatures "v1.0.0").score
    risk_level := "HIGH"
    risk_drivers := []
    permit_count_6m := 0
    complaint_count_6m := 15
    incident_count_6m := 0
    strategy_summary := ""
    actions := []
    questions := []
    risk_if_no_action := ""
    analyzed_at := "2026-01-25T00:00:00Z"
    pipeline_duration_ms := 900 }

/-- Witness for the clamping theorem at the sample feature vector. -/
theorem riskScore_unit_interval_and_percent_witness :
    (0 ≤ (RiskScorer.score sampleFeatures "v1.0.0").score ∧
     (RiskScorer.score sampleFeatures "v1.0.0").score ≤ 1) ∧
    (0 ≤ dashboardRiskScore percentResult ∧
     dashboardRiskScore percentResult ≤ 100) :=
  ⟨(riskScore_unit_interval_and_percent sampleFeatures "v1.0.0").1,
   (riskScore_unit_interval_and_percent sampleFeatures "v1.0.0").2
     percentResult rfl⟩

/-- C8 (counterexample): a non-ok response whose body parses to JSON `null`
does not throw an Error with message "Analysis failed" — the `error.detail`
access itself throws a TypeError, because `response.json()` resolves (to
`null`) so the `.catch` fallback does not apply. -/
theorem analyzeBusinessRisk_null_body :
    analyzeBusinessRisk ⟨false, some JsonVal.null⟩ =
      Except.error FetchError.nullDetailAccess ∧
    analyzeBusinessRisk ⟨false, some JsonVal.null⟩ ≠
      Except.error (FetchError.appError (JsonVal.str "Analysis failed")) := by
  constructor
  · rfl
  · intro h
    have h2 : Except.error (ε := FetchError) (α := JsonVal)
        FetchError.nullDetailAccess =
        Except.error (FetchError.appError (JsonVal.str "Analysis failed")) := h
    injection h2 with h3
    exact FetchError.noConfusion h3

/-- C8 (amended): `analyzeBusinessRisk` returns the parsed body exactly on
an ok response (propagating a parse failure, never a partial result); on a
non-ok response it throws — with message equal to the body's `detail` field
when that parses and is truthy, with message "Analysis failed" when the body
fails to parse or has no truthy `detail`, except that a body parsing to JSON
`null` makes the `detail` access itself throw a TypeError. -/
theorem analyzeBusinessRisk_behavior (r : HttpResponse) :
    (r.ok = true → ∀ v : JsonVal, r.bodyJson = some v →
      analyzeBusinessRisk r = .ok v) ∧
    (r.ok = true → r.bodyJson = none →
      analyzeBusinessRisk r = .error .parseFailure) ∧
    (r.ok = false → r.bodyJson = none →
      analyzeBusinessRisk r = .error (.appError (.str "Analysis failed"))) ∧
    (r.ok = false → ∀ v : JsonVal, r.bodyJson = some v →
      jsGetProp v "detail" = .error () →
      analyzeBusinessRisk r = .error .nullDetailAccess) ∧
    (r.ok = false → ∀ v d : JsonVal, r.bodyJson = some v →
      jsGetProp v "detail" = .ok (some d) → truthy d = true →
      analyzeBusinessRisk r = .error (.appError d)) ∧
    (r.ok = false → ∀ v d : JsonVal, r.bodyJson = some v →
      jsGetProp v "detail" = .ok (some d) → truthy d = false →
      analyzeBusinessRisk r = .error (.appError (.str "Analysis failed"))) ∧
    (r.ok = false → ∀ v : JsonVal, r.bodyJson = some v →
      jsGetProp v "detail" = .ok none →
      analyzeBusinessRisk r = .error (.appError (.str "Analysis failed"))) ∧
    (∀ v : JsonVal, analyzeBusinessRisk r = .ok v →
      r.ok = true ∧ r.bodyJson = some v) := by
  refine ⟨?_, ?_, ?_, ?_, ?_, ?_, ?_, ?_⟩
  · intro hok v hb
    simp [analyzeBusinessRisk, hok, hb]
  · intro hok hb
    simp [analyzeBusinessRisk, hok, hb]
  · intro hok hb
    simp [analyzeBusinessRisk, hok, hb, jsGetProp, truthy]
  · intro hok v hb hg
    simp [analyzeBusinessRisk, hok, hb, hg]
  · intro hok v d hb hg ht
    simp [analyzeBusinessRisk, hok, hb, hg, ht]
  · intro hok v d hb hg ht
    simp [analyzeBusinessRisk, hok, hb, hg, ht]
  · intro hok v hb hg
    simp [analyzeBusinessRisk, hok, hb, hg]
  · intro v hv
    by_cases hok : r.ok
    · cases hbody : r.bodyJson with
      | none => simp [analyzeBusinessRisk, hok, hbody] at hv
      | some w =>
        simp [analyzeBusinessRisk, hok, hbody] at hv
        exact ⟨hok, congrArg some hv⟩
    · simp only [Bool.not_eq_true] at hok
      cases hg : jsGetProp (r.bodyJson.getD
          (.obj [("detail", .str "Analysis failed")])) "detail" with
      | error e => simp [analyzeBusinessRisk, hok, hg] at hv
      | ok d => simp [analyzeBusinessRisk, hok, hg] at hv

/-- Witness for the behavior theorem: an ok response returns its parsed
body; a non-ok response with a truthy `detail` throws that detail. -/
theorem analyzeBusinessRisk_behavior_witness :
    analyzeBusinessRisk ⟨true, some (JsonVal.str "parsed")⟩ =
      Except.ok (JsonVal.str "parsed") ∧
    analyzeBusinessRisk ⟨false,
        some (JsonVal.obj [("detail", JsonVal.str "Entity not found")])⟩ =
      Except.error (FetchError.appError (JsonVal.str "Entity not found")) :=
  ⟨(analyzeBusinessRisk_behavior ⟨true, some (JsonVal.str "parsed")⟩).1
      rfl _ rfl,
   (analyzeBusinessRisk_behavior ⟨false,
        some (JsonVal.obj [("detail", JsonVal.str "Entity not found")])⟩
      ).2.2.2.2.1 rfl _ _ rfl rfl rfl⟩

/-- C9: every business the Supabase-backed discover list and map fetches
produce has riskLevel `high` (the queries keep only rows with
`risk_level = 'High'`), and for an arbitrary row the mapping yields `high`
exactly when the row's `risk_level` lower-cases to `"high"` and `critical`
in every other case — the levels `low` and `medium` can never appear. -/
theorem fetched_riskLevels_high_or_critical :
    (∀ (page : Nat) (table : List MasterModelRow) (b : Business),
      b ∈ fetchBusinessesList page table → b.riskLevel = RiskLevel.high) ∧
    (∀ (coords : MasterModelRow → ℚ × ℚ) (table : List MasterModelRow)
        (b : Business),
      b ∈ fetchBusinessesMap coords table → b.riskLevel = RiskLevel.high) ∧
    (∀ (coords : MasterModelRow → ℚ × ℚ) (item : MasterModelRow),
      ((mapRowToBusiness coords item).riskLevel = RiskLevel.high ↔
        item.risk_level.map jsToLower = some "high") ∧
      (mapRowToBusiness coords item).riskLevel ≠ RiskLevel.low ∧
      (mapRowToBusiness coords item).riskLevel ≠ RiskLevel.medium) := by
  refine ⟨?_, ?_, ?_⟩
  · intro page table b hb
    obtain ⟨row, hrow, rfl⟩ := List.mem_map.mp hb
    have h1 := List.mem_of_mem_drop (List.mem_of_mem_take hrow)
    have h3 : row.risk_level = some "High" := by
      simpa using (List.mem_filter.mp h1).2
    have hlow : jsToLower "High" = "high" := rfl
    simp [mapRowToBusiness, h3, hlow]
  · intro coords table b hb
    obtain ⟨row, hrow, rfl⟩ := List.mem_map.mp hb
    have h3 : row.risk_level = some "High" := by
      simpa using (List.mem_filter.mp hrow).2
    have hlow : jsToLower "High" = "high" := rfl
    simp [mapRowToBusiness, h3, hlow]
  · intro coords item
    cases hrl : item.risk_level with
    | none => simp [mapRowToBusiness, hrl]
    | some s =>
      by_cases hlo : jsToLower s = "high"
      · simp [mapRowToBusiness, hrl, hlo]
      · simp [mapRowToBusiness, hrl, hlo]

/-- A `master_model_data` row as the high-risk query returns it. -/
def highRiskRow : MasterModelRow :=
  { id := some "101"
    dba_name := some "Golden Gate Books"
    ownership_name := none
    neighborhood := some "Inner Richmond"
    full_business_address := some "400 Clement St, San Francisco, CA"
    latitude := none
    longitude := none
    risk_score := some (78 / 100)
    risk_level := some "High"
    naic_code_description := some "Book retailers"
    business_age := some 12 }

/-- Witness for the riskLevel theorem at a concrete fetched row. -/
theorem fetched_riskLevels_high_or_critical_witness :
    (mapRowToBusiness discoverCoords highRiskRow).riskLevel =
      RiskLevel.high ∧
    (mapRowToBusiness discoverCoords highRiskRow).riskLevel ≠
      RiskLevel.low ∧
    (mapRowToBusiness discoverCoords highRiskRow).riskLevel ≠
      RiskLevel.medium :=
  ⟨fetched_riskLevels_high_or_critical.1 1 [highRiskRow]
      (mapRowToBusiness discoverCoords highRiskRow)
      (by rw [show fetchBusinessesList 1 [highRiskRow] =
            [mapRowToBusiness discoverCoords highRiskRow] from rfl]
          exact List.mem_singleton.mpr rfl),
   (fetched_riskLevels_high_or_critical.2.2 discoverCoords highRiskRow).2⟩

end SlowCal
